import Mathlib

/-!
Verification of the GlazeWM IPC client (`src/client.ts`).

The client is a single class `GwmClient` multiplexing one websocket
connection.  We embed it as a state machine: the class fields become a
`ClientState` record, each public method becomes a state transformer, and
the socket's `onmessage` handler together with the promise microtask drain
becomes `handleMessage`.

JavaScript function references are modelled by identity tokens: a callback
registered via `onMessage` keeps the user's function reference (a `Nat`
identifier), while the closures created inside `sendAndWaitReply` and
`subscribe` are fresh objects, modelled by a fresh number drawn from a
counter in the state.  Strict equality `===` of string commands is string
equality.
-/

namespace Gwm

/-- Options accepted by the constructor (`GwmClientOptions` in client.ts):
a single numeric `port`. -/
structure GwmClientOptions where
  port : Nat
deriving DecidableEq, Repr

/-- Default port used by GlazeWM for the IPC server (client.ts line 18). -/
def DEFAULT_PORT : Nat := 6123

/-- Address handed to the WebSocket constructor (client.ts lines 21-23):
the string "ws://localhost:" followed by the `port` option when present and
by `DEFAULT_PORT` otherwise, exactly as written by the template literal
with `options?.port ?? DEFAULT_PORT`. -/
def socketAddress (options : Option GwmClientOptions) : String :=
  "ws://localhost:" ++ toString (match options with
    | some o => o.port
    | none => DEFAULT_PORT)

/-- Payload of a `subscribed_event` message as used by client.ts line 99:
the only field the client inspects is `type`; the rest of the event payload
is opaque and kept as a number. -/
structure GwmEventData where
  type : String
  payload : Nat
deriving DecidableEq, Repr

/-- Server message as consumed by client.ts: a `messageType` discriminant,
the echoed `clientMessage` for replies, an optional `error` string and the
`data` payload.  JavaScript truthiness of `error` is captured by
`truthyError`. -/
structure ServerMessage where
  messageType : String
  clientMessage : String
  error : Option String
  data : GwmEventData
deriving DecidableEq, Repr

/-- JavaScript truthiness of the `error` field checked at client.ts line 88:
absent and empty strings are falsy. -/
def truthyError : Option String → Bool
  | none => false
  | some s => s != ""

/-- Entry of the `_onMessageCallbacks` array.  `user` is a function
reference handed to `onMessage`; `reply` is the fresh closure created by a
`sendAndWaitReply` call (client.ts lines 46-52), carrying the identity of
its pending promise and the awaited command; `subEvent` is the fresh
filtering closure created by a successful `subscribe` (lines 94-102).
Structural equality of this type is reference equality of the underlying
JavaScript functions: distinct constructors and distinct freshness tokens
are distinct references. -/
inductive Listener where
  | user (cbId : Nat)
  | reply (reqId : Nat) (cmd : String)
  | subEvent (subId : Nat) (events : List String) (cbId : Nat)
deriving DecidableEq, Repr

/-- An in-flight `sendAndWaitReply` promise: the awaited command and, once
resolved, the message it resolved with. -/
structure PendingReq where
  reqId : Nat
  cmd : String
  result : Option ServerMessage
deriving DecidableEq, Repr

/-- Outcome of the promise returned by `subscribe`. -/
inductive SubOutcome where
  | awaiting
  | rejected (errMsg : String)
  | resolved
deriving DecidableEq, Repr

/-- An invocation of a `subscribe` call: it awaits the pending request
`reqId` issued for its `subscribe -e ...` command and, on a success reply,
registers the listener `Listener.subEvent subId events cbId`. -/
structure SubscribeCall where
  subId : Nat
  reqId : Nat
  events : List String
  cbId : Nat
  outcome : SubOutcome
deriving DecidableEq, Repr

/-- A record of one user-visible callback invocation. -/
inductive Invocation where
  | message (cbId : Nat) (msg : ServerMessage)
  | event (cbId : Nat) (data : GwmEventData)
deriving DecidableEq, Repr

/-- State of a `GwmClient` instance: the socket address chosen at
construction, the four callback registries, the in-flight
`sendAndWaitReply` promises and `subscribe` calls, the messages handed to
the socket (in order), the log of callback invocations, whether
`socket.close()` was called, and a counter supplying fresh identities for
closures and promises. -/
structure ClientState where
  endpoint : String
  messageCallbacks : List Listener := []
  connectCallbacks : List Nat := []
  disconnectCallbacks : List Nat := []
  errorCallbacks : List Nat := []
  pending : List PendingReq := []
  subs : List SubscribeCall := []
  sent : List String := []
  invocations : List Invocation := []
  socketClosed : Bool := false
  nextId : Nat := 0
deriving DecidableEq, Repr

/-- Construction (client.ts lines 30-32): the socket is created with
`socketAddress options`; all registries start empty. -/
def GwmClient.new (options : Option GwmClientOptions) : ClientState :=
  { endpoint := socketAddress options }

/-- Fire-and-forget send (client.ts lines 35-37): hands the message to the
socket. -/
def send (cmd : String) (st : ClientState) : ClientState :=
  { st with sent := st.sent ++ [cmd] }

/-- Registration half of `onMessage` (client.ts line 110): appends the
callback reference to `_onMessageCallbacks`. -/
def onMessage (cbId : Nat) (st : ClientState) : ClientState :=
  { st with messageCallbacks := st.messageCallbacks ++ [Listener.user cbId] }

/-- The unlisten handle returned by `onMessage` (client.ts lines 112-116):
filters out of the registry every entry strictly equal to the registered
callback reference. -/
def unlistenMessage (cbId : Nat) (st : ClientState) : ClientState :=
  { st with messageCallbacks :=
      st.messageCallbacks.filter (fun cb => cb != Listener.user cbId) }

/-- Registration half of `onError` (client.ts line 143). -/
def onError (cbId : Nat) (st : ClientState) : ClientState :=
  { st with errorCallbacks := st.errorCallbacks ++ [cbId] }

/-- The unlisten handle returned by `onError` (client.ts lines 145-149). -/
def unlistenError (cbId : Nat) (st : ClientState) : ClientState :=
  { st with errorCallbacks := st.errorCallbacks.filter (fun cb => cb != cbId) }

/-- Close (client.ts lines 73-75): the whole body is
`this._socket.close()`; nothing else in the client is touched. -/
def close (st : ClientState) : ClientState :=
  { st with socketClosed := true }

/-- Primitive steps performed by the executor of the promise built in
`sendAndWaitReply`. -/
inductive ReplyPrim where
  | primSend (cmd : String)
  | primRegister (cmd : String)
deriving DecidableEq, Repr

/-- Executor body of `sendAndWaitReply` in source order (client.ts lines
43-53): first `this.send(message)` (line 44), then
`unlisten = this.onMessage(...)` (line 46). -/
def sendAndWaitReplyBody (cmd : String) : List ReplyPrim :=
  [ReplyPrim.primSend cmd, ReplyPrim.primRegister cmd]

/-- Effect of one executor step.  Registering the temporary listener also
creates the pending promise whose `resolve` the listener captures; both
carry the same fresh identity. -/
def applyReplyPrim (st : ClientState) (p : ReplyPrim) : ClientState :=
  match p with
  | ReplyPrim.primSend cmd => send cmd st
  | ReplyPrim.primRegister cmd =>
      { st with
        messageCallbacks := st.messageCallbacks ++ [Listener.reply st.nextId cmd],
        pending := st.pending ++ [⟨st.nextId, cmd, none⟩],
        nextId := st.nextId + 1 }

/-- The synchronous part of `sendAndWaitReply` (client.ts lines 40-55): run
the executor steps in source order. -/
def sendAndWaitReply (cmd : String) (st : ClientState) : ClientState :=
  (sendAndWaitReplyBody cmd).foldl applyReplyPrim st

/-- The command string built by `subscribe` (client.ts line 85):
"subscribe -e " followed by the comma-joined event names. -/
def subscribeCommand (events : List String) : String :=
  "subscribe -e " ++ String.intercalate "," events

/-- Rejection message thrown at client.ts lines 89-91; a JavaScript array
interpolates as its comma-joined elements. -/
def subscribeErrorMessage (events : List String) (e : String) : String :=
  "Failed to subscribe to event '" ++ String.intercalate "," events ++ "': " ++ e

/-- The synchronous part of `subscribe` (client.ts lines 79-87): normalise
the events to a list (callers passing a single event pass a singleton),
issue `sendAndWaitReply` on the subscribe command, and suspend awaiting its
promise.  The continuation after the `await` is `runSubContinuation`. -/
def subscribe (events : List String) (cbId : Nat) (st : ClientState) : ClientState :=
  let reqId := st.nextId
  let st1 := sendAndWaitReply (subscribeCommand events) st
  { st1 with
    subs := st1.subs ++ [⟨st1.nextId, reqId, events, cbId, SubOutcome.awaiting⟩],
    nextId := st1.nextId + 1 }

/-- Predicate checked by the temporary listener of `sendAndWaitReply`
(client.ts lines 47-50): the message kind is `client_response` and its
`clientMessage` is strictly equal to the sent command. -/
def matchesReply (cmd : String) (msg : ServerMessage) : Bool :=
  msg.messageType == "client_response" && msg.clientMessage == cmd

/-- Predicate checked by the listener registered by `subscribe` (client.ts
lines 96-100): the kind is `subscribed_event` and the payload's event type
is a member of the requested set. -/
def matchesEvent (events : List String) (msg : ServerMessage) : Bool :=
  msg.messageType == "subscribed_event" && events.contains msg.data.type

/-- Resolve the pending promise `reqId` with `msg`; a promise resolves at
most once, so an already-settled promise is left alone. -/
def resolvePending (reqId : Nat) (msg : ServerMessage) (ps : List PendingReq) : List PendingReq :=
  ps.map (fun p =>
    if p.reqId == reqId && p.result.isNone then { p with result := some msg } else p)

/-- Effect of delivering one inbound message to one registry entry, per the
three listener bodies in client.ts: an `onMessage` callback is invoked with
the message; the `sendAndWaitReply` closure resolves its promise on a
match; the `subscribe` closure invokes the subscriber on a matching
event. -/
def runListener (msg : ServerMessage) (st : ClientState) (l : Listener) : ClientState :=
  match l with
  | Listener.user cbId =>
      { st with invocations := st.invocations ++ [Invocation.message cbId msg] }
  | Listener.reply reqId cmd =>
      if matchesReply cmd msg then
        { st with pending := resolvePending reqId msg st.pending }
      else st
  | Listener.subEvent _ events cbId =>
      if matchesEvent events msg then
        { st with invocations := st.invocations ++ [Invocation.event cbId msg.data] }
      else st

/-- Whether the pending promise `reqId` has settled. -/
def isResolved (ps : List PendingReq) (reqId : Nat) : Bool :=
  ps.any (fun p => p.reqId == reqId && p.result.isSome)

/-- Keep a registry entry through the `.finally` cleanup of
`sendAndWaitReply` (client.ts line 54): a temporary reply listener whose
promise has settled is unregistered; every other entry stays. -/
def keptByCleanup (ps : List PendingReq) (l : Listener) : Bool :=
  match l with
  | Listener.reply reqId _ => !(isResolved ps reqId)
  | _ => true

/-- Microtask phase, part one: every settled `sendAndWaitReply` promise
runs its `.finally(() => unlisten())`, removing its temporary listener. -/
def cleanupResolved (st : ClientState) : ClientState :=
  { st with messageCallbacks := st.messageCallbacks.filter (keptByCleanup st.pending) }

/-- Find the pending promise with identity `reqId`. -/
def findPending (ps : List PendingReq) (reqId : Nat) : Option PendingReq :=
  ps.find? (fun p => p.reqId == reqId)

/-- Continuation of `subscribe` after its awaited reply settles (client.ts
lines 88-105): a truthy `error` field rejects the returned promise with the
descriptive message and registers nothing; otherwise the filtering listener
is registered and the promise resolves with its unlisten handle. -/
def runSubContinuation (st : ClientState) (sub : SubscribeCall) : ClientState × SubscribeCall :=
  match sub.outcome with
  | SubOutcome.awaiting =>
    match findPending st.pending sub.reqId with
    | some p =>
      match p.result with
      | some msg =>
        if truthyError msg.error then
          (st, { sub with outcome :=
                  SubOutcome.rejected (subscribeErrorMessage sub.events (msg.error.getD "")) })
        else
          ({ st with messageCallbacks :=
               st.messageCallbacks ++ [Listener.subEvent sub.subId sub.events sub.cbId] },
           { sub with outcome := SubOutcome.resolved })
      | none => (st, sub)
    | none => (st, sub)
  | _ => (st, sub)

/-- One step of the microtask drain over the `subscribe` calls. -/
def subContStep (acc : ClientState × List SubscribeCall) (sub : SubscribeCall) :
    ClientState × List SubscribeCall :=
  ((runSubContinuation acc.1 sub).1, acc.2 ++ [(runSubContinuation acc.1 sub).2])

/-- Microtask phase, part two: run the continuation of every `subscribe`
call whose awaited promise has settled. -/
def runSubContinuations (st : ClientState) : ClientState :=
  let folded := st.subs.foldl subContStep ({ st with subs := [] }, [])
  { folded.1 with subs := folded.2 }

/-- Delivery of one inbound message (client.ts lines 154-155) followed by
the microtask drain: fan the message out to the snapshot of the
message-listener registry in registration order, then run the `.finally`
cleanups of settled promises and the pending `subscribe` continuations. -/
def handleMessage (msg : ServerMessage) (st : ClientState) : ClientState :=
  let st1 := st.messageCallbacks.foldl (runListener msg) st
  runSubContinuations (cleanupResolved st1)

/-- Delivery of a sequence of inbound messages in transport order. -/
def deliverAll (msgs : List ServerMessage) (st : ClientState) : ClientState :=
  msgs.foldl (fun s m => handleMessage m s) st

/-- A registry fragment holding only user message callbacks. -/
def userListeners (us : List Nat) : List Listener := us.map Listener.user

/-- Register a list of user callbacks through repeated onMessage calls. -/
def withListeners (us : List Nat) (st : ClientState) : ClientState :=
  us.foldl (fun s u => onMessage u s) st

/-- Concrete reply to the "monitors" command, used in sample runs. -/
def replyMonitors : ServerMessage := ⟨"client_response", "monitors", none, ⟨"", 0⟩⟩

/-- A second, distinct concrete reply to the "monitors" command. -/
def replyMonitorsLate : ServerMessage := ⟨"client_response", "monitors", none, ⟨"", 9⟩⟩

/-- Concrete reply to the "windows" command, used in sample runs. -/
def replyWindows : ServerMessage := ⟨"client_response", "windows", none, ⟨"", 1⟩⟩

/-- Concrete `subscribed_event` message of type "focus". -/
def eventFocus : ServerMessage := ⟨"subscribed_event", "", none, ⟨"focus", 7⟩⟩

/-- Concrete `subscribed_event` message of type "other". -/
def eventOther : ServerMessage := ⟨"subscribed_event", "", none, ⟨"other", 8⟩⟩

/-- Concrete successful reply to a subscribe command for focus and move. -/
def replySubscribeOk : ServerMessage :=
  ⟨"client_response", subscribeCommand ["focus", "move"], none, ⟨"", 2⟩⟩

/-- Concrete error reply to a subscribe command for focus. -/
def replySubscribeErr : ServerMessage :=
  ⟨"client_response", subscribeCommand ["focus"], some "bad event", ⟨"", 3⟩⟩

/-- A concrete state whose single pending request has settled while its
temporary listener is still registered, feeding the cleanup step. -/
def settledExample : ClientState :=
  { endpoint := socketAddress none,
    messageCallbacks := [Listener.reply 0 "monitors"],
    pending := [⟨0, "monitors", some replyMonitors⟩] }

/-- The subscribe continuation never records a callback invocation, in any
branch: it only updates the registry and the call's outcome. -/
lemma runSubContinuation_fst_invocations (st : ClientState) (sub : SubscribeCall) :
    (runSubContinuation st sub).1.invocations = st.invocations := by
  unfold runSubContinuation
  repeat' split
  all_goals rfl

/-- Folding the microtask drain over subscribe calls leaves the invocation
log unchanged. -/
lemma foldl_subContStep_invocations (subs : List SubscribeCall)
    (acc : ClientState × List SubscribeCall) :
    ((subs.foldl subContStep acc).1).invocations = acc.1.invocations := by
  induction subs generalizing acc with
  | nil => rfl
  | cons s ss ih =>
    rw [List.foldl_cons, ih]
    exact runSubContinuation_fst_invocations acc.1 s

/-- The whole second microtask phase leaves the invocation log unchanged. -/
lemma runSubContinuations_invocations (st : ClientState) :
    (runSubContinuations st).invocations = st.invocations := by
  unfold runSubContinuations
  exact foldl_subContStep_invocations st.subs ({ st with subs := [] }, [])

/-- The invocations recorded by a delivery are exactly those produced by
the listener fan-out; the microtask drain adds none. -/
lemma handleMessage_invocations (msg : ServerMessage) (st : ClientState) :
    (handleMessage msg st).invocations =
      (st.messageCallbacks.foldl (runListener msg) st).invocations := by
  unfold handleMessage
  rw [runSubContinuations_invocations]
  rfl

/-- When the function reference f is absent from the registry snapshot, the
fan-out of one message records no invocation of f. -/
lemma foldl_runListener_count (msg : ServerMessage) (f : Nat)
    (L : List Listener) (S : ClientState) (h : Listener.user f ∉ L) :
    ((L.foldl (runListener msg) S).invocations).count (Invocation.message f msg) =
      S.invocations.count (Invocation.message f msg) := by
  induction L generalizing S with
  | nil => rfl
  | cons l ls ih =>
    have hl : l ≠ Listener.user f := fun he => h (he ▸ List.mem_cons_self l ls)
    have hls : Listener.user f ∉ ls := fun hm => h (List.mem_cons_of_mem l hm)
    rw [List.foldl_cons, ih (runListener msg S l) hls]
    match l with
    | Listener.user u =>
        have hu : u ≠ f := by rintro rfl; exact hl rfl
        simp [runListener, List.count_append, List.count_cons, hu]
    | Listener.reply r c =>
        by_cases hmr : matchesReply c msg <;> simp [runListener, hmr]
    | Listener.subEvent s evs cb =>
        by_cases hme : matchesEvent evs msg <;>
          simp [runListener, hme, List.count_append]

/-- C1: every construction targets "ws://localhost:" followed by the
supplied port, with 6123 when the options (and hence the port) are
omitted; in particular port 7000 gives "ws://localhost:7000" and no
options give "ws://localhost:6123". -/
theorem C1_socket_endpoint (p : Nat) :
    (GwmClient.new (some ⟨p⟩)).endpoint = "ws://localhost:" ++ toString p ∧
    (GwmClient.new none).endpoint = "ws://localhost:6123" ∧
    (GwmClient.new (some ⟨7000⟩)).endpoint = "ws://localhost:7000" := by
  refine ⟨rfl, ?_, ?_⟩ <;> decide

/-- C2 counterexample: the executor of `sendAndWaitReply` performs the
send strictly before registering the temporary listener (client.ts lines
44-46), so its step sequence is not the claimed
register-then-send order. -/
theorem C2_counterexample :
    sendAndWaitReplyBody "monitors" =
      [ReplyPrim.primSend "monitors", ReplyPrim.primRegister "monitors"] ∧
    sendAndWaitReplyBody "monitors" ≠
      [ReplyPrim.primRegister "monitors", ReplyPrim.primSend "monitors"] := by
  decide

/-- C2 amended: the executor first sends the command and then registers
the temporary listener; on a subsequent inbound message matching kind
`client_response` with `clientMessage` equal to the command, the pending
result is fulfilled with that message and the temporary listener is
unregistered. -/
theorem C2_send_then_listen (cmd : String) (msg : ServerMessage)
    (o : Option GwmClientOptions) (hm : matchesReply cmd msg = true) :
    sendAndWaitReplyBody cmd = [ReplyPrim.primSend cmd, ReplyPrim.primRegister cmd] ∧
    (sendAndWaitReply cmd (GwmClient.new o)).sent = [cmd] ∧
    (sendAndWaitReply cmd (GwmClient.new o)).messageCallbacks = [Listener.reply 0 cmd] ∧
    (handleMessage msg (sendAndWaitReply cmd (GwmClient.new o))).pending =
      [⟨0, cmd, some msg⟩] ∧
    (handleMessage msg (sendAndWaitReply cmd (GwmClient.new o))).messageCallbacks = [] := by
  refine ⟨rfl, rfl, rfl, ?_, ?_⟩ <;>
    simp [handleMessage, sendAndWaitReply, sendAndWaitReplyBody, applyReplyPrim, send,
      GwmClient.new, runListener, hm, resolvePending, cleanupResolved, keptByCleanup,
      isResolved, runSubContinuations, subContStep]

/-- C9: close only delegates to the socket's close; the four callback
registries, the pending requests and the subscribe calls are untouched,
so no pending promise is settled. -/
theorem C9_close_frame (st : ClientState) :
    (close st).messageCallbacks = st.messageCallbacks ∧
    (close st).connectCallbacks = st.connectCallbacks ∧
    (close st).disconnectCallbacks = st.disconnectCallbacks ∧
    (close st).errorCallbacks = st.errorCallbacks ∧
    (close st).pending = st.pending ∧
    (close st).subs = st.subs ∧
    (close st).socketClosed = true :=
  ⟨rfl, rfl, rfl, rfl, rfl, rfl, rfl⟩

/-- C10: registering the same callback reference twice and invoking one of
the returned unlisten handles removes every occurrence of that reference
from the registry, for both the message and the error registries. -/
theorem C10_unlisten_removes_all (f : Nat) (st : ClientState) :
    (unlistenMessage f (onMessage f (onMessage f st))).messageCallbacks.count
        (Listener.user f) = 0 ∧
    (unlistenError f (onError f (onError f st))).errorCallbacks.count f = 0 := by
  constructor <;>
  · rw [List.count_eq_zero]
    intro hmem
    have h := List.of_mem_filter hmem
    simp at h

/-- Witness for C2's amended theorem on the "monitors" command with its
concrete reply. -/
theorem C2_send_then_listen_witness :
    sendAndWaitReplyBody "monitors" =
      [ReplyPrim.primSend "monitors", ReplyPrim.primRegister "monitors"] ∧
    (sendAndWaitReply "monitors" (GwmClient.new none)).sent = ["monitors"] ∧
    (sendAndWaitReply "monitors" (GwmClient.new none)).messageCallbacks =
      [Listener.reply 0 "monitors"] ∧
    (handleMessage replyMonitors (sendAndWaitReply "monitors" (GwmClient.new none))).pending =
      [⟨0, "monitors", some replyMonitors⟩] ∧
    (handleMessage replyMonitors
        (sendAndWaitReply "monitors" (GwmClient.new none))).messageCallbacks = [] :=
  C2_send_then_listen "monitors" replyMonitors none (by decide)

/-- C8: after registering f via onMessage and invoking the returned
unlisten handle, f is absent from the registry, a subsequent inbound
message records no invocation of f, and invoking the handle a second time
leaves the whole state unchanged (the handle is a total filter, so it
cannot throw). -/
theorem C8_unlisten_round_trip (f : Nat) (st : ClientState) (msg : ServerMessage) :
    Listener.user f ∉ (unlistenMessage f (onMessage f st)).messageCallbacks ∧
    ((handleMessage msg (unlistenMessage f (onMessage f st))).invocations.count
        (Invocation.message f msg) =
      (unlistenMessage f (onMessage f st)).invocations.count (Invocation.message f msg)) ∧
    unlistenMessage f (unlistenMessage f (onMessage f st)) =
      unlistenMessage f (onMessage f st) := by
  have hnot : Listener.user f ∉ (unlistenMessage f (onMessage f st)).messageCallbacks := by
    intro hmem
    have h := List.of_mem_filter hmem
    simp at h
  refine ⟨hnot, ?_, ?_⟩
  · rw [handleMessage_invocations]
    exact foldl_runListener_count msg f _ _ hnot
  · have hf : ∀ l : List Listener,
        (l.filter (fun cb => cb != Listener.user f)).filter
            (fun cb => cb != Listener.user f) =
          l.filter (fun cb => cb != Listener.user f) := fun l =>
      List.filter_eq_self.mpr (fun a ha => (List.mem_filter.mp ha).2)
    simp [unlistenMessage, hf]

/-- C5: each sendAndWaitReply call appends exactly one temporary listener
to the registry, and the finally-style cleanup unregisters that listener
from any state in which the call's promise has settled. -/
theorem C5_one_listener_cleanup (cmd : String) (st : ClientState) (m : ServerMessage) :
    (sendAndWaitReply cmd st).messageCallbacks =
      st.messageCallbacks ++ [Listener.reply st.nextId cmd] ∧
    ∀ st2 : ClientState,
      findPending st2.pending st.nextId = some ⟨st.nextId, cmd, some m⟩ →
        Listener.reply st.nextId cmd ∉ (cleanupResolved st2).messageCallbacks := by
  constructor
  · rfl
  · intro st2 hfp hmem
    have hkept := List.of_mem_filter hmem
    have hel : (⟨st.nextId, cmd, some m⟩ : PendingReq) ∈ st2.pending :=
      List.mem_of_find?_eq_some hfp
    have hres : isResolved st2.pending st.nextId = true := by
      apply List.any_eq_true.mpr
      exact ⟨⟨st.nextId, cmd, some m⟩, hel, by simp⟩
    simp [keptByCleanup, hres] at hkept

/-- Witness for C5 at the "monitors" command from a fresh client, with a
concrete settled state. -/
theorem C5_one_listener_cleanup_witness :
    (sendAndWaitReply "monitors" (GwmClient.new none)).messageCallbacks =
      [Listener.reply 0 "monitors"] ∧
    Listener.reply 0 "monitors" ∉ (cleanupResolved settledExample).messageCallbacks := by
  have h := C5_one_listener_cleanup "monitors" (GwmClient.new none) replyMonitors
  exact ⟨h.1, h.2 settledExample (by decide)⟩

/-- C4: two in-flight sendAndWaitReply calls with distinct commands each
resolve with their own matching reply even when the replies arrive in the
opposite order from the requests: after delivering the reply to the second
command and then the reply to the first, the first pending promise holds
the first reply and the second holds the second, and both temporary
listeners are unregistered. -/
theorem C4_concurrent_out_of_order (c1 c2 : String) (m1 m2 : ServerMessage)
    (hne : c1 ≠ c2) (h1 : matchesReply c1 m1 = true) (h2 : matchesReply c2 m2 = true) :
    (handleMessage m1 (handleMessage m2
        (sendAndWaitReply c2 (sendAndWaitReply c1 (GwmClient.new none))))).pending =
      [⟨0, c1, some m1⟩, ⟨1, c2, some m2⟩] ∧
    (handleMessage m1 (handleMessage m2
        (sendAndWaitReply c2 (sendAndWaitReply c1 (GwmClient.new none))))).messageCallbacks =
      [] := by
  have hp1 : m1.messageType = "client_response" ∧ m1.clientMessage = c1 := by
    have h := h1; simp [matchesReply] at h; exact h
  have hp2 : m2.messageType = "client_response" ∧ m2.clientMessage = c2 := by
    have h := h2; simp [matchesReply] at h; exact h
  have h12 : matchesReply c2 m1 = false := by
    simp [matchesReply, hp1.1, hp1.2, hne]
  have h21 : matchesReply c1 m2 = false := by
    simp [matchesReply, hp2.1, hp2.2, Ne.symm hne]
  constructor <;>
    simp [handleMessage, sendAndWaitReply, sendAndWaitReplyBody, applyReplyPrim, send,
      GwmClient.new, runListener, h1, h2, h12, h21, resolvePending, cleanupResolved,
      keptByCleanup, isResolved, runSubContinuations, subContStep]

/-- Witness for C4 on the "monitors" and "windows" commands with their
concrete replies delivered out of order. -/
theorem C4_concurrent_out_of_order_witness :
    (handleMessage replyMonitors (handleMessage replyWindows
        (sendAndWaitReply "windows" (sendAndWaitReply "monitors"
          (GwmClient.new none))))).pending =
      [⟨0, "monitors", some replyMonitors⟩, ⟨1, "windows", some replyWindows⟩] ∧
    (handleMessage replyMonitors (handleMessage replyWindows
        (sendAndWaitReply "windows" (sendAndWaitReply "monitors"
          (GwmClient.new none))))).messageCallbacks = [] :=
  C4_concurrent_out_of_order "monitors" "windows" replyMonitors replyWindows
    (by decide) (by decide) (by decide)

/-- C6: when the reply to a subscribe call carries a non-empty error, the
call's promise rejects with the message naming the requested events and
the server's error text, the registry ends empty (no permanent listener),
and delivering any further message invokes no callback. -/
theorem C6_subscribe_error_rejects (events : List String) (cbId : Nat) (e : String)
    (msg msg2 : ServerMessage) (he : e ≠ "")
    (h1 : msg.messageType = "client_response")
    (h2 : msg.clientMessage = subscribeCommand events)
    (h3 : msg.error = some e) :
    (handleMessage msg (subscribe events cbId (GwmClient.new none))).subs =
      [⟨1, 0, events, cbId, SubOutcome.rejected (subscribeErrorMessage events e)⟩] ∧
    (handleMessage msg (subscribe events cbId (GwmClient.new none))).messageCallbacks =
      [] ∧
    (handleMessage msg2 (handleMessage msg
        (subscribe events cbId (GwmClient.new none)))).invocations =
      (handleMessage msg (subscribe events cbId (GwmClient.new none))).invocations := by
  have hm : matchesReply (subscribeCommand events) msg = true := by
    simp [matchesReply, h1, h2]
  have ht : truthyError (some e) = true := by
    simp [truthyError, he]
  refine ⟨?_, ?_, ?_⟩ <;>
    simp [handleMessage, subscribe, sendAndWaitReply, sendAndWaitReplyBody,
      applyReplyPrim, send, GwmClient.new, runListener, hm, ht, h3, resolvePending,
      cleanupResolved, keptByCleanup, isResolved, runSubContinuations, subContStep,
      runSubContinuation, findPending]

/-- C7: after a successful subscribe to focus and move, a subscribed_event
message whose payload type is "focus" invokes the subscriber exactly once
with that message's data, and a subscribed_event message whose payload
type is not a member of the requested set never invokes it. -/
theorem C7_subscribe_dispatch (cbId : Nat) (reply ev1 ev2 : ServerMessage)
    (hr1 : reply.messageType = "client_response")
    (hr2 : reply.clientMessage = subscribeCommand ["focus", "move"])
    (hr3 : reply.error = none)
    (he1 : ev1.messageType = "subscribed_event")
    (he2 : ev1.data.type = "focus")
    (ho1 : ev2.messageType = "subscribed_event")
    (ho2 : ev2.data.type ∉ (["focus", "move"] : List String)) :
    (handleMessage ev1 (handleMessage reply
        (subscribe ["focus", "move"] cbId (GwmClient.new none)))).invocations =
      [Invocation.event cbId ev1.data] ∧
    (handleMessage ev2 (handleMessage reply
        (subscribe ["focus", "move"] cbId (GwmClient.new none)))).invocations =
      [] := by
  have hm : matchesReply (subscribeCommand ["focus", "move"]) reply = true := by
    simp [matchesReply, hr1, hr2]
  have ht : truthyError reply.error = false := by simp [truthyError, hr3]
  have hev1 : matchesEvent ["focus", "move"] ev1 = true := by
    simp [matchesEvent, he1, he2]
  have hev2 : matchesEvent ["focus", "move"] ev2 = false := by
    simp [matchesEvent, ho1, ho2]
  constructor <;>
    simp [handleMessage, subscribe, sendAndWaitReply, sendAndWaitReplyBody,
      applyReplyPrim, send, GwmClient.new, runListener, hm, ht, hev1, hev2,
      resolvePending, cleanupResolved, keptByCleanup, isResolved,
      runSubContinuations, subContStep, runSubContinuation, findPending]

/-- Registering user callbacks only appends to the message registry and
touches nothing else that a round trip inspects. -/
lemma withListeners_spec (us : List Nat) (st : ClientState) :
    (withListeners us st).messageCallbacks = st.messageCallbacks ++ userListeners us ∧
    (withListeners us st).pending = st.pending ∧
    (withListeners us st).subs = st.subs ∧
    (withListeners us st).nextId = st.nextId := by
  induction us generalizing st with
  | nil => simp [withListeners, userListeners]
  | cons u us ih =>
    have h := ih (onMessage u st)
    simp only [withListeners, List.foldl_cons] at h ⊢
    refine ⟨?_, h.2.1, h.2.2.1, h.2.2.2⟩
    rw [h.1]
    simp [onMessage, userListeners]

/-- Fanning one message out to user callbacks only appends invocations:
the registry, pending requests and subscribe calls are unchanged. -/
lemma foldl_runListener_users (msg : ServerMessage) (us : List Nat) (S : ClientState) :
    ((userListeners us).foldl (runListener msg) S).messageCallbacks = S.messageCallbacks ∧
    ((userListeners us).foldl (runListener msg) S).pending = S.pending ∧
    ((userListeners us).foldl (runListener msg) S).subs = S.subs := by
  induction us generalizing S with
  | nil => exact ⟨rfl, rfl, rfl⟩
  | cons u us ih =>
    have h := ih (runListener msg S (Listener.user u))
    simp only [userListeners, List.map_cons, List.foldl_cons] at h ⊢
    exact h

/-- The finally-style cleanup never removes a user callback. -/
lemma filter_kept_users (ps : List PendingReq) (us : List Nat) :
    (userListeners us).filter (keptByCleanup ps) = userListeners us := by
  apply List.filter_eq_self.mpr
  intro a ha
  obtain ⟨u, _, rfl⟩ := List.mem_map.mp ha
  rfl

/-- With no subscribe calls the second microtask phase is the identity. -/
lemma runSubContinuations_subs_nil (st : ClientState) (h : st.subs = []) :
    runSubContinuations st = st := by
  cases st with
  | mk e mc cc dc ec p sb se inv sc nid =>
    simp only at h
    subst h
    rfl

/-- Delivering a matching reply to an awaiting round trip resolves its
pending promise with that message and unregisters the temporary
listener. -/
lemma handleMessage_awaiting_match (us : List Nat) (cmd : String) (m : ServerMessage)
    (st : ClientState)
    (hmc : st.messageCallbacks = userListeners us ++ [Listener.reply 0 cmd])
    (hp : st.pending = [⟨0, cmd, none⟩]) (hs : st.subs = [])
    (hm : matchesReply cmd m = true) :
    (handleMessage m st).messageCallbacks = userListeners us ∧
    (handleMessage m st).pending = [⟨0, cmd, some m⟩] ∧
    (handleMessage m st).subs = [] := by
  have hU := foldl_runListener_users m us st
  have hfold : st.messageCallbacks.foldl (runListener m) st
      = { (userListeners us).foldl (runListener m) st with
          pending :=
            resolvePending 0 m ((userListeners us).foldl (runListener m) st).pending } := by
    rw [hmc, List.foldl_append, List.foldl_cons, List.foldl_nil]
    simp [runListener, hm]
  have hXp : (st.messageCallbacks.foldl (runListener m) st).pending
      = [⟨0, cmd, some m⟩] := by
    rw [hfold]
    show resolvePending 0 m ((userListeners us).foldl (runListener m) st).pending = _
    rw [hU.2.1, hp]
    simp [resolvePending]
  have hX : (st.messageCallbacks.foldl (runListener m) st).messageCallbacks
      = userListeners us ++ [Listener.reply 0 cmd] := by
    rw [hfold]
    exact hU.1.trans hmc
  have hXs : (st.messageCallbacks.foldl (runListener m) st).subs = [] := by
    rw [hfold]
    exact hU.2.2.trans hs
  have hhm : handleMessage m st
      = cleanupResolved (st.messageCallbacks.foldl (runListener m) st) := by
    unfold handleMessage
    exact runSubContinuations_subs_nil _ hXs
  rw [hhm]
  refine ⟨?_, hXp, hXs⟩
  show (st.messageCallbacks.foldl (runListener m) st).messageCallbacks.filter
      (keptByCleanup (st.messageCallbacks.foldl (runListener m) st).pending)
      = userListeners us
  rw [hX, hXp, List.filter_append, filter_kept_users]
  simp [keptByCleanup, isResolved]

/-- Delivering a non-matching message to an awaiting round trip leaves the
registry, the pending promise and the subscribe calls unchanged. -/
lemma handleMessage_awaiting_no_match (us : List Nat) (cmd : String) (m : ServerMessage)
    (st : ClientState)
    (hmc : st.messageCallbacks = userListeners us ++ [Listener.reply 0 cmd])
    (hp : st.pending = [⟨0, cmd, none⟩]) (hs : st.subs = [])
    (hm : matchesReply cmd m = false) :
    (handleMessage m st).messageCallbacks = userListeners us ++ [Listener.reply 0 cmd] ∧
    (handleMessage m st).pending = [⟨0, cmd, none⟩] ∧
    (handleMessage m st).subs = [] := by
  have hU := foldl_runListener_users m us st
  have hfold : st.messageCallbacks.foldl (runListener m) st
      = (userListeners us).foldl (runListener m) st := by
    rw [hmc, List.foldl_append, List.foldl_cons, List.foldl_nil]
    simp [runListener, hm]
  have hX : (st.messageCallbacks.foldl (runListener m) st).messageCallbacks
      = userListeners us ++ [Listener.reply 0 cmd] := by
    rw [hfold]
    exact hU.1.trans hmc
  have hXp : (st.messageCallbacks.foldl (runListener m) st).pending
      = [⟨0, cmd, none⟩] := by
    rw [hfold]
    exact hU.2.1.trans hp
  have hXs : (st.messageCallbacks.foldl (runListener m) st).subs = [] := by
    rw [hfold]
    exact hU.2.2.trans hs
  have hhm : handleMessage m st
      = cleanupResolved (st.messageCallbacks.foldl (runListener m) st) := by
    unfold handleMessage
    exact runSubContinuations_subs_nil _ hXs
  rw [hhm]
  refine ⟨?_, hXp, hXs⟩
  show (st.messageCallbacks.foldl (runListener m) st).messageCallbacks.filter
      (keptByCleanup (st.messageCallbacks.foldl (runListener m) st).pending)
      = userListeners us ++ [Listener.reply 0 cmd]
  rw [hX, hXp, List.filter_append, filter_kept_users]
  simp [keptByCleanup, isResolved]

/-- After a round trip has completed, further deliveries leave the
registry, the resolved promise and the subscribe calls unchanged. -/
lemma handleMessage_done (us : List Nat) (cmd : String) (m0 m : ServerMessage)
    (st : ClientState)
    (hmc : st.messageCallbacks = userListeners us)
    (hp : st.pending = [⟨0, cmd, some m0⟩]) (hs : st.subs = []) :
    (handleMessage m st).messageCallbacks = userListeners us ∧
    (handleMessage m st).pending = [⟨0, cmd, some m0⟩] ∧
    (handleMessage m st).subs = [] := by
  have hU := foldl_runListener_users m us st
  have hfold : st.messageCallbacks.foldl (runListener m) st
      = (userListeners us).foldl (runListener m) st := by
    rw [hmc]
  have hX : (st.messageCallbacks.foldl (runListener m) st).messageCallbacks
      = userListeners us := by
    rw [hfold]
    exact hU.1.trans hmc
  have hXp : (st.messageCallbacks.foldl (runListener m) st).pending
      = [⟨0, cmd, some m0⟩] := by
    rw [hfold]
    exact hU.2.1.trans hp
  have hXs : (st.messageCallbacks.foldl (runListener m) st).subs = [] := by
    rw [hfold]
    exact hU.2.2.trans hs
  have hhm : handleMessage m st
      = cleanupResolved (st.messageCallbacks.foldl (runListener m) st) := by
    unfold handleMessage
    exact runSubContinuations_subs_nil _ hXs
  rw [hhm]
  refine ⟨?_, hXp, hXs⟩
  show (st.messageCallbacks.foldl (runListener m) st).messageCallbacks.filter
      (keptByCleanup (st.messageCallbacks.foldl (runListener m) st).pending)
      = userListeners us
  rw [hX, filter_kept_users]

/-- A completed round trip is stable under any further deliveries. -/
lemma deliverAll_done (us : List Nat) (cmd : String) (m0 : ServerMessage)
    (msgs : List ServerMessage) (st : ClientState)
    (hmc : st.messageCallbacks = userListeners us)
    (hp : st.pending = [⟨0, cmd, some m0⟩]) (hs : st.subs = []) :
    (deliverAll msgs st).messageCallbacks = userListeners us ∧
    (deliverAll msgs st).pending = [⟨0, cmd, some m0⟩] ∧
    (deliverAll msgs st).subs = [] := by
  induction msgs generalizing st with
  | nil => exact ⟨hmc, hp, hs⟩
  | cons m ms ih =>
    have h := handleMessage_done us cmd m0 m st hmc hp hs
    simp only [deliverAll, List.foldl_cons] at ih ⊢
    exact ih (handleMessage m st) h.1 h.2.1 h.2.2

/-- Delivering any message sequence to an awaiting round trip resolves its
pending promise with the first matching message of the sequence, if any,
and the temporary listener is unregistered exactly when a match arrived. -/
lemma deliverAll_awaiting (us : List Nat) (cmd : String)
    (msgs : List ServerMessage) (st : ClientState)
    (hmc : st.messageCallbacks = userListeners us ++ [Listener.reply 0 cmd])
    (hp : st.pending = [⟨0, cmd, none⟩]) (hs : st.subs = []) :
    (deliverAll msgs st).pending = [⟨0, cmd, msgs.find? (matchesReply cmd)⟩] ∧
    (deliverAll msgs st).messageCallbacks =
      (if (msgs.find? (matchesReply cmd)).isSome then userListeners us
       else userListeners us ++ [Listener.reply 0 cmd]) ∧
    (deliverAll msgs st).subs = [] := by
  induction msgs generalizing st with
  | nil => simp [deliverAll, hp, hmc, hs]
  | cons m ms ih =>
    cases hm : matchesReply cmd m with
    | true =>
      have h := handleMessage_awaiting_match us cmd m st hmc hp hs hm
      have hd := deliverAll_done us cmd m ms (handleMessage m st) h.1 h.2.1 h.2.2
      simp only [deliverAll, List.foldl_cons] at hd ⊢
      rw [List.find?_cons_of_pos _ hm]
      simp [hd.1, hd.2.1, hd.2.2]
    | false =>
      have h := handleMessage_awaiting_no_match us cmd m st hmc hp hs hm
      have := ih (handleMessage m st) h.1 h.2.1 h.2.2
      simp only [deliverAll, List.foldl_cons] at this ⊢
      rw [List.find?_cons_of_neg _ (by simp [hm])]
      exact this

/-- C3: a round trip started on any client with only user listeners
resolves with the first inbound message of kind client_response whose
clientMessage equals the command, and the message-listener registry has
the same size before the call and after the round trip completed. -/
theorem C3_resolves_first_match (cmd : String) (us : List Nat)
    (msgs : List ServerMessage)
    (h : (msgs.find? (matchesReply cmd)).isSome = true) :
    (deliverAll msgs (sendAndWaitReply cmd (withListeners us (GwmClient.new none)))).pending =
      [⟨0, cmd, msgs.find? (matchesReply cmd)⟩] ∧
    (deliverAll msgs (sendAndWaitReply cmd (withListeners us
        (GwmClient.new none)))).messageCallbacks.length =
      (withListeners us (GwmClient.new none)).messageCallbacks.length := by
  have hW := withListeners_spec us (GwmClient.new none)
  have hmc0 : (withListeners us (GwmClient.new none)).messageCallbacks
      = userListeners us := by
    rw [hW.1]
    rfl
  have hnid : (withListeners us (GwmClient.new none)).nextId = 0 := hW.2.2.2
  have hpend0 : (withListeners us (GwmClient.new none)).pending = [] := hW.2.1
  have hsub0 : (withListeners us (GwmClient.new none)).subs = [] := hW.2.2.1
  have hA : (sendAndWaitReply cmd (withListeners us (GwmClient.new none))).messageCallbacks
      = userListeners us ++ [Listener.reply 0 cmd] := by
    simp [sendAndWaitReply, sendAndWaitReplyBody, applyReplyPrim, send, hmc0, hnid]
  have hApend : (sendAndWaitReply cmd (withListeners us (GwmClient.new none))).pending
      = [⟨0, cmd, none⟩] := by
    simp [sendAndWaitReply, sendAndWaitReplyBody, applyReplyPrim, send, hpend0, hnid]
  have hAsubs : (sendAndWaitReply cmd (withListeners us (GwmClient.new none))).subs
      = [] := by
    simp [sendAndWaitReply, sendAndWaitReplyBody, applyReplyPrim, send, hsub0]
  have hD := deliverAll_awaiting us cmd msgs _ hA hApend hAsubs
  refine ⟨hD.1, ?_⟩
  rw [hD.2.1, if_pos h, hmc0]

/-- Witness for C3: a non-matching event message followed by two matching
replies; the round trip resolves with the first matching reply and the
registry keeps its single user listener. -/
theorem C3_resolves_first_match_witness :
    (deliverAll [eventFocus, replyMonitors, replyMonitorsLate]
        (sendAndWaitReply "monitors" (withListeners [5] (GwmClient.new none)))).pending =
      [⟨0, "monitors",
        List.find? (matchesReply "monitors") [eventFocus, replyMonitors, replyMonitorsLate]⟩] ∧
    (deliverAll [eventFocus, replyMonitors, replyMonitorsLate]
        (sendAndWaitReply "monitors" (withListeners [5]
          (GwmClient.new none)))).messageCallbacks.length =
      (withListeners [5] (GwmClient.new none)).messageCallbacks.length :=
  C3_resolves_first_match "monitors" [5] [eventFocus, replyMonitors, replyMonitorsLate]
    (by decide)

/-- Witness for C6: subscribing to focus and receiving the reply carrying
error text "bad event" rejects, registers nothing, and a later matching
event message invokes no callback. -/
theorem C6_subscribe_error_rejects_witness :
    (handleMessage replySubscribeErr (subscribe ["focus"] 42 (GwmClient.new none))).subs =
      [⟨1, 0, ["focus"], 42,
        SubOutcome.rejected (subscribeErrorMessage ["focus"] "bad event")⟩] ∧
    (handleMessage replySubscribeErr
        (subscribe ["focus"] 42 (GwmClient.new none))).messageCallbacks = [] ∧
    (handleMessage eventFocus (handleMessage replySubscribeErr
        (subscribe ["focus"] 42 (GwmClient.new none)))).invocations =
      (handleMessage replySubscribeErr
        (subscribe ["focus"] 42 (GwmClient.new none))).invocations :=
  C6_subscribe_error_rejects ["focus"] 42 "bad event" replySubscribeErr eventFocus
    (by decide) (by decide) (by decide) (by decide)

/-- Witness for C7: the concrete focus event invokes subscriber 42 exactly
once with its payload; the concrete other event invokes nothing. -/
theorem C7_subscribe_dispatch_witness :
    (handleMessage eventFocus (handleMessage replySubscribeOk
        (subscribe ["focus", "move"] 42 (GwmClient.new none)))).invocations =
      [Invocation.event 42 eventFocus.data] ∧
    (handleMessage eventOther (handleMessage replySubscribeOk
        (subscribe ["focus", "move"] 42 (GwmClient.new none)))).invocations = [] :=
  C7_subscribe_dispatch 42 replySubscribeOk eventFocus eventOther
    (by decide) (by decide) (by decide) (by decide) (by decide) (by decide) (by decide)

end Gwm
